import Mathlib

/-!
The chrono request-duration logging middleware (fasthttp and gin bindings)

A shallow embedding of `fasthttpchrono/fhchrono.go` and `ginchrono/chrono.go`.

* `time.Duration` is an integer count of nanoseconds (`Int`; the source type is int64 and
  the only arithmetic on it, `time.Since`, saturates at the int64 bounds).
* `LogLevel` is a string type in the source and stays one here.
* A handler is a function on a `World`: the request context it may mutate and the clock it
  lets advance. The clock is advanced only by the downstream handler; the statements of
  the middleware itself take no modelled time. Handlers are modelled as returning: the
  middleware has no `recover` and no `defer`, so a panic downstream unwinds through it
  unchanged and is outside this model.
* The wrapped handler additionally returns the list of the calls the middleware made, in
  order: the downstream handler, the configured logger, the process-wide `log.Print`.
* Library renderings the source calls but does not define (`time.Time.Format`,
  `time.Duration.String`, gin's `errorMsgs.String`) are fields of `Host`.
* `fmt.Sprintf` is modelled for the fragment of format strings the source uses. Its result
  is `none` outside the fragment; `fmt.Sprintf_line` and `fmt.Sprintf_tail` show that the
  two format strings of the source are inside, so the default of `getD` in `New` is never
  taken.
* Go passes `config` to `New` by value and the methods `Enable`, `Disable` and
  `AddSkipPath` have pointer receivers. On values they are functions `Config → Config`;
  where aliasing matters (`append` may write into a backing array that a copy of the
  slice header shares) `Program` keeps the variable of the caller, the captured copy and
  the heap apart.
-/

namespace Chrono

/-! ## time -/

namespace time

/-- Nanosecond count, as Go's `time.Duration`. -/
abbrev Duration := Int

def Nanosecond : Duration := 1
def Microsecond : Duration := 1000 * Nanosecond
def Millisecond : Duration := 1000 * Microsecond
def Second : Duration := 1000 * Millisecond

def minDuration : Duration := -(2 ^ 63)
def maxDuration : Duration := 2 ^ 63 - 1

/-- Elapsed time `now - start` as `time.Since(start)` computes it when the clock reads
`now`: the difference, saturated at the bounds of int64. -/
def Since (start now : Int) : Duration :=
  if now - start > maxDuration then maxDuration
  else if now - start < minDuration then minDuration
  else now - start

end time

/-! ## fmt.Sprintf, the fragment in use -/

namespace fmt

/-- An operand of `Sprintf`. `str` is an operand of string kind (a `string`, or a named
string type without a `String` method such as `LogLevel`), `int` an `int`, and `stringer`
an operand with a `String` method, carried as the text that method returns. -/
inductive Arg where
  | str (s : String)
  | int (n : Int)
  | stringer (text : String)

def writePadding (n : Nat) : List Char := List.replicate n ' '

/-- Padding as `fmt.pad` and `fmt.padString` do it: nothing when no width is set, else
spaces up to the width, counted in characters, on the left unless the minus flag is set.
Text longer than the width is written whole. -/
def pad (minus : Bool) (wid : Nat) (b : List Char) : List Char :=
  if wid = 0 then b
  else
    let width := wid - b.length
    if !minus then writePadding width ++ b else b ++ writePadding width

/-- Decimal digits of an integer, with a leading minus sign when negative. -/
def fmtInteger (n : Int) : List Char :=
  if n < 0 then '-' :: (Nat.repr n.natAbs).data else (Nat.repr n.natAbs).data

/-- Where the scan of the format string stands: in literal text, after a percent sign
reading flags, or reading the digits of a width. -/
inductive Mode where
  | text
  | flags (minus : Bool)
  | width (minus : Bool) (wid : Nat)

structure Printer where
  mode : Mode
  args : List Arg
  buf : List Char

/-- One operand under one verb. Only the pairs of the fragment are given a value: `%s`
and `%v` of a string or of a Stringer, `%d` and `%v` of an integer. -/
def printArg (verb : Char) (minus : Bool) (wid : Nat) : Arg → Option (List Char)
  | .str s => if verb = 's' ∨ verb = 'v' then some (pad minus wid s.data) else none
  | .stringer t => if verb = 's' ∨ verb = 'v' then some (pad minus wid t.data) else none
  | .int n => if verb = 'd' ∨ verb = 'v' then some (pad minus wid (fmtInteger n)) else none

/-- A verb consumes the next operand; a missing operand is outside the fragment. -/
def printVerb (verb : Char) (minus : Bool) (wid : Nat) (buf : List Char) :
    List Arg → Option Printer
  | [] => none
  | a :: rest => (printArg verb minus wid a).map fun s => ⟨.text, rest, buf ++ s⟩

/-- One character of the format string. -/
def step (c : Char) (p : Printer) : Option Printer :=
  match p.mode with
  | .text =>
      if c = '%' then some ⟨.flags false, p.args, p.buf⟩
      else some ⟨.text, p.args, p.buf ++ [c]⟩
  | .flags minus =>
      if c = '-' then some ⟨.flags true, p.args, p.buf⟩
      else if '1' ≤ c ∧ c ≤ '9' then some ⟨.width minus (c.toNat - 48), p.args, p.buf⟩
      else printVerb c minus 0 p.buf p.args
  | .width minus wid =>
      if '0' ≤ c ∧ c ≤ '9' then
        (if wid * 10 + (c.toNat - 48) > 1000000 then none
         else some ⟨.width minus (wid * 10 + (c.toNat - 48)), p.args, p.buf⟩)
      else printVerb c minus wid p.buf p.args

/-- The scan of `doPrintf`. The result is `none` outside the fragment: another flag or
verb, an operand of the wrong kind, a missing or a left-over operand, a format that ends
inside a directive. -/
def doPrintf : List Char → Printer → Option (List Char)
  | [], p =>
      match p.mode, p.args with
      | .text, [] => some p.buf
      | _, _ => none
  | c :: cs, p =>
      match step c p with
      | none => none
      | some q => doPrintf cs q

def Sprintf (format : String) (a : List Arg) : Option String :=
  (doPrintf format.data ⟨.text, a, []⟩).map String.mk

end fmt

/-! ## What the host supplies -/

/-- Library renderings used by the middleware. -/
structure Host where
  /-- Rendering of `time.Time.Format(layout)` for the instant read from the clock. -/
  timeFormat : String → Int → String
  /-- Rendering of `time.Duration.String`. -/
  durationString : time.Duration → String
  /-- Rendering of gin's `errorMsgs.String`, the messages of the request joined. -/
  errorsString : List String → String

/-- A function value of type `func(format string, v ...interface{})`: the standard
library's `log.Printf`, or a function of the caller, told apart by a number. -/
inductive LoggerFn where
  | logPrintf
  | user (id : Nat)
deriving DecidableEq

/-- A call made by the wrapped handler. -/
inductive Call where
  /-- The downstream handler: `next(ctx)`, `c.Next()`. -/
  | next
  /-- The configured logger `f`, called as `f(format, v...)`. -/
  | logger (f : LoggerFn) (format : String) (v : List fmt.Arg)
  /-- The process-wide logger, `log.Print(msg)`. -/
  | logPrint (msg : String)

/-- The lines handed to a sink, in order. -/
def emitted : List Call → List String
  | [] => []
  | .next :: cs => emitted cs
  | .logger _ format _ :: cs => format :: emitted cs
  | .logPrint msg :: cs => msg :: emitted cs

/-- How many times the downstream handler was invoked. -/
def nextCalls : List Call → Nat
  | [] => 0
  | .next :: cs => nextCalls cs + 1
  | _ :: cs => nextCalls cs

/-! ## Slices in memory -/

namespace memory

/-- A slice header: the address of the backing array, the length and the capacity. -/
structure Slice where
  array : Nat
  len : Nat
  cap : Nat

/-- Backing arrays of strings by address and index, and the first address not yet
allocated. -/
structure Heap where
  cells : Nat → Nat → String
  next : Nat

/-- The elements a slice header gives access to. -/
def Heap.read (h : Heap) (s : Slice) : List String :=
  (List.range s.len).map (h.cells s.array)

/-- Go's `append(s, x)`: with spare capacity the element is written in place, behind the
last one, into the backing array the slice shares with every copy of its header; without,
a new array is allocated (its capacity chosen by the runtime, `grow`), the elements are
copied and the new one written behind them. -/
def append (grow : Nat → Nat) (h : Heap) (s : Slice) (x : String) : Heap × Slice :=
  if s.len < s.cap then
    ({ h with cells := fun a i => if a = s.array ∧ i = s.len then x else h.cells a i },
     { s with len := s.len + 1 })
  else
    ({ cells := fun a i =>
         if a = h.next then
           (if i < s.len then h.cells s.array i else if i = s.len then x else "")
         else h.cells a i
       next := h.next + 1 },
     { array := h.next, len := s.len + 1, cap := max (s.len + 1) (grow s.cap) })

end memory

/-- The request context together with the clock. -/
structure World (Ctx : Type) where
  ctx : Ctx
  clock : Int

/-! ## fasthttpchrono -/

namespace fasthttpchrono

abbrev LogLevel := String

def INFO : LogLevel := "INFO"
def WARN : LogLevel := "WARN"
def ERROR : LogLevel := "ERROR"

structure Config where
  Enabled : Bool
  WarningThreshold : time.Duration
  ErrorThreshold : time.Duration
  LogAllRequests : Bool
  /-- The value `none` is Go's nil. -/
  Logger : Option LoggerFn
  SkipPaths : List String

def DefaultConfig : Config :=
  { Enabled := true
    WarningThreshold := 500 * time.Millisecond
    ErrorThreshold := 2000 * time.Millisecond
    LogAllRequests := false
    Logger := some LoggerFn.logPrintf
    SkipPaths := [] }

def determineLogLevel (duration : time.Duration) (config : Config) : LogLevel :=
  if config.ErrorThreshold > 0 ∧ duration ≥ config.ErrorThreshold then ERROR
  else if config.WarningThreshold > 0 ∧ duration ≥ config.WarningThreshold then WARN
  else INFO

def getLogLevelColor (level : LogLevel) : String :=
  if level = ERROR then "\x1b[31m"
  else if level = WARN then "\x1b[33m"
  else "\x1b[32m"

def shouldSkipPath (path : String) : List String → Bool
  | [] => false
  | skipPath :: rest => if skipPath = path then true else shouldSkipPath path rest

/-- What the middleware reads of `*fasthttp.RequestCtx`. -/
structure RequestCtx where
  /-- Value of `string(ctx.Path())`. -/
  Path : String
  /-- Value of `string(ctx.Method())`. -/
  Method : String
  /-- Value of `ctx.RemoteIP().String()`. -/
  RemoteIP : String
  /-- Value of `string(ctx.UserAgent())`. -/
  UserAgent : String
  /-- Value of `ctx.Response.StatusCode()`. -/
  StatusCode : Int

abbrev RequestHandler := World RequestCtx → World RequestCtx

def New (host : Host) (config : Config) (next : RequestHandler) :
    World RequestCtx → World RequestCtx × List Call :=
  fun w =>
    if (!config.Enabled || shouldSkipPath w.ctx.Path config.SkipPaths) = true then
      (next w, [Call.next])
    else
      let start := w.clock
      let w := next w
      let duration := time.Since start w.clock
      let logLevel := determineLogLevel duration config
      if (!config.LogAllRequests) = true ∧ logLevel = INFO then
        (w, [Call.next])
      else
        let statusCode := w.ctx.StatusCode
        let reset := "\x1b[0m"
        let colorCode := getLogLevelColor logLevel
        let message := (fmt.Sprintf "%s[%s]%s %v | %3d | %13v | %15s | %-7s %s"
          [.str colorCode,
           .str logLevel,
           .str reset,
           .str (host.timeFormat "2006/01/02 - 15:04:05" w.clock),
           .int statusCode,
           .stringer (host.durationString duration),
           .str w.ctx.RemoteIP,
           .str w.ctx.Method,
           .str w.ctx.Path]).getD ""
        let userAgent := w.ctx.UserAgent
        let message :=
          if userAgent ≠ "" then message ++ (fmt.Sprintf " | %s" [.str userAgent]).getD ""
          else message
        match config.Logger with
        | some f => (w, [Call.next, Call.logger f message []])
        | none => (w, [Call.next, Call.logPrint message])

/-- Method `(c *Config) Enable()`, as the new value of the pointee. -/
def Enable (c : Config) : Config := { c with Enabled := true }

/-- Method `(c *Config) Disable()`, as the new value of the pointee. -/
def Disable (c : Config) : Config := { c with Enabled := false }

/-- Method `(c *Config) AddSkipPath(path)`, as the new value of the pointee. -/
def AddSkipPath (c : Config) (path : String) : Config :=
  { c with SkipPaths := c.SkipPaths ++ [path] }

/-- A `Config` as a variable holds it: `SkipPaths` is a slice header. -/
structure ConfigVar where
  Enabled : Bool
  WarningThreshold : time.Duration
  ErrorThreshold : time.Duration
  LogAllRequests : Bool
  Logger : Option LoggerFn
  SkipPaths : memory.Slice

/-- The `Config` value read through a variable. -/
def ConfigVar.load (v : ConfigVar) (h : memory.Heap) : Config :=
  { Enabled := v.Enabled
    WarningThreshold := v.WarningThreshold
    ErrorThreshold := v.ErrorThreshold
    LogAllRequests := v.LogAllRequests
    Logger := v.Logger
    SkipPaths := h.read v.SkipPaths }

/-- The caller's variable `config`, the copy of it that `New(config)` received as its
parameter and the returned closure captured, and the heap both point into. -/
structure Program where
  heap : memory.Heap
  caller : ConfigVar
  captured : ConfigVar

/-- The state right after `New(config)`: the parameter is a copy of the variable. -/
def Program.afterNew (h : memory.Heap) (config : ConfigVar) : Program :=
  { heap := h, caller := config, captured := config }

/-- A method call on the caller's variable. -/
inductive Op where
  | Enable
  | Disable
  | AddSkipPath (path : String)

def Op.run (grow : Nat → Nat) : Op → Program → Program
  | .Enable, p => { p with caller := { p.caller with Enabled := true } }
  | .Disable, p => { p with caller := { p.caller with Enabled := false } }
  | .AddSkipPath path, p =>
      let r := memory.append grow p.heap p.caller.SkipPaths path
      { p with heap := r.1, caller := { p.caller with SkipPaths := r.2 } }

def Program.run (grow : Nat → Nat) : List Op → Program → Program
  | [], p => p
  | op :: ops, p => Program.run grow ops (op.run grow p)

/-- The same method call on a `Config` value. -/
def Op.onValue : Op → Config → Config
  | .Enable, c => fasthttpchrono.Enable c
  | .Disable, c => fasthttpchrono.Disable c
  | .AddSkipPath path, c => fasthttpchrono.AddSkipPath c path

/-- What the method calls may not undo for the captured copy `v` to read, in `p`, what it
read in the heap `h` where `New` was called: the copy is still `v`, the elements within
its length are untouched, its backing array is allocated, and the slice of the variable,
where it still shares that array, is at least as long. -/
def Program.Keeps (h : memory.Heap) (v : ConfigVar) (p : Program) : Prop :=
  p.captured = v ∧
  (∀ i, i < v.SkipPaths.len →
    p.heap.cells v.SkipPaths.array i = h.cells v.SkipPaths.array i) ∧
  v.SkipPaths.array < p.heap.next ∧
  (p.caller.SkipPaths.array = v.SkipPaths.array → v.SkipPaths.len ≤ p.caller.SkipPaths.len)

/-- The closure `New` returned, run on a request in state `p`. -/
def Program.handler (host : Host) (p : Program) (next : RequestHandler) :
    World RequestCtx → World RequestCtx × List Call :=
  New host (p.captured.load p.heap) next

end fasthttpchrono

/-! ## ginchrono -/

namespace ginchrono

abbrev LogLevel := String

def INFO : LogLevel := "INFO"
def WARN : LogLevel := "WARN"
def ERROR : LogLevel := "ERROR"

structure Config where
  Enabled : Bool
  WarningThreshold : time.Duration
  ErrorThreshold : time.Duration
  LogAllRequests : Bool
  /-- The value `none` is Go's nil. -/
  Logger : Option LoggerFn

def DefaultConfig : Config :=
  { Enabled := true
    WarningThreshold := 500 * time.Millisecond
    ErrorThreshold := 2000 * time.Millisecond
    LogAllRequests := false
    Logger := some LoggerFn.logPrintf }

def determineLogLevel (duration : time.Duration) (config : Config) : LogLevel :=
  if config.ErrorThreshold > 0 ∧ duration ≥ config.ErrorThreshold then ERROR
  else if config.WarningThreshold > 0 ∧ duration ≥ config.WarningThreshold then WARN
  else INFO

def getLogLevelColor (level : LogLevel) : String :=
  if level = ERROR then "\x1b[31m"
  else if level = WARN then "\x1b[33m"
  else "\x1b[32m"

/-- What the middleware reads of `*gin.Context`. -/
structure Context where
  /-- Value of `c.Request.Method`. -/
  Method : String
  /-- Value of `c.Request.URL.Path`. -/
  Path : String
  /-- Value of `c.ClientIP()`. -/
  ClientIP : String
  /-- Value of `c.Writer.Status()`. -/
  Status : Int
  /-- The messages of `c.Errors`, oldest first. -/
  Errors : List String

/-- The rest of the handler chain, which `c.Next()` runs. -/
abbrev HandlerFunc := World Context → World Context

def New (host : Host) (config : Config) (next : HandlerFunc) :
    World Context → World Context × List Call :=
  fun c =>
    if (!config.Enabled) = true then
      (next c, [Call.next])
    else
      let start := c.clock
      let c := next c
      let duration := time.Since start c.clock
      let logLevel := determineLogLevel duration config
      if (!config.LogAllRequests) = true ∧ logLevel = INFO then
        (c, [Call.next])
      else
        let statusCode := c.ctx.Status
        let reset := "\x1b[0m"
        let colorCode := getLogLevelColor logLevel
        let message := (fmt.Sprintf "%s[%s]%s %v | %3d | %13v | %15s | %-7s %s"
          [.str colorCode,
           .str logLevel,
           .str reset,
           .str (host.timeFormat "2006/01/02 - 15:04:05" c.clock),
           .int statusCode,
           .stringer (host.durationString duration),
           .str c.ctx.ClientIP,
           .str c.ctx.Method,
           .str c.ctx.Path]).getD ""
        let message :=
          if c.ctx.Errors.length > 0 then message ++ " | " ++ host.errorsString c.ctx.Errors
          else message
        match config.Logger with
        | some f => (c, [Call.next, Call.logger f message []])
        | none => (c, [Call.next, Call.logPrint message])

/-- Method `(c *Config) Enable()`, as the new value of the pointee. -/
def Enable (c : Config) : Config := { c with Enabled := true }

/-- Method `(c *Config) Disable()`, as the new value of the pointee. -/
def Disable (c : Config) : Config := { c with Enabled := false }

/-- The caller's variable `config` and the copy of it that `New(config)` received as its
parameter and the returned closure captured. -/
structure Program where
  caller : Config
  captured : Config

/-- The state right after `New(config)`: the parameter is a copy of the variable. -/
def Program.afterNew (config : Config) : Program :=
  { caller := config, captured := config }

/-- A method call on the caller's variable. -/
inductive Op where
  | Enable
  | Disable

def Op.run : Op → Program → Program
  | .Enable, p => { p with caller := ginchrono.Enable p.caller }
  | .Disable, p => { p with caller := ginchrono.Disable p.caller }

def Program.run : List Op → Program → Program
  | [], p => p
  | op :: ops, p => Program.run ops (op.run p)

/-- The closure `New` returned, run on a request in state `p`. -/
def Program.handler (host : Host) (p : Program) (next : HandlerFunc) :
    World Context → World Context × List Call :=
  New host p.captured next

end ginchrono

/-! ## The log line as the specification words it -/

namespace Spec

/-- Text right-aligned to a minimum width: spaces in front up to the width. -/
def rightAlign (width : Nat) (s : String) : String :=
  String.mk (List.replicate (width - s.length) ' ') ++ s

/-- Text left-aligned to a minimum width: spaces behind up to the width. -/
def leftAlign (width : Nat) (s : String) : String :=
  s ++ String.mk (List.replicate (width - s.length) ' ')

/-- Colour code of a level: red for ERROR, yellow for WARN, green for INFO. -/
def colour (level : String) : String :=
  if level = "ERROR" then "\x1b[31m" else if level = "WARN" then "\x1b[33m" else "\x1b[32m"

/-- The fixed part of the line, field by field in the order of the specification. -/
def logLine (level timestamp : String) (status : Int) (duration address method path : String) :
    String :=
  colour level ++ "[" ++ level ++ "]" ++ "\x1b[0m" ++ " " ++ timestamp ++ " | " ++
    rightAlign 3 (toString status) ++ " | " ++ rightAlign 13 duration ++ " | " ++
    rightAlign 15 address ++ " | " ++ leftAlign 7 method ++ " " ++ path

/-- The whole line of the fasthttp variant: the user agent follows when it is non-empty. -/
def fasthttpLine (level timestamp : String) (status : Int)
    (duration address method path userAgent : String) : String :=
  logLine level timestamp status duration address method path ++
    (if userAgent = "" then "" else " | " ++ userAgent)

/-- The whole line of the gin variant: the joined error messages follow when the error
list of the request is non-empty. -/
def ginLine (level timestamp : String) (status : Int)
    (duration address method path : String) (errors : List String) (joined : String) : String :=
  logLine level timestamp status duration address method path ++
    (if errors = [] then "" else " | " ++ joined)

end Spec

/-! ## Sample inputs -/

namespace Sample

/-- A host whose renderings are easy to read: the clock reading and the duration are
written as plain nanosecond counts, the error messages are joined by semicolons. -/
def host : Host :=
  { timeFormat := fun _ t => "t" ++ toString t
    durationString := fun d => toString d ++ "ns"
    errorsString := fun es => String.intercalate ";" es }

def fhCtx : fasthttpchrono.RequestCtx :=
  { Path := "/slow", Method := "GET", RemoteIP := "10.0.0.7", UserAgent := "curl/8.5",
    StatusCode := 200 }

/-- A fasthttp handler that takes `d` nanoseconds and answers with `status`. -/
def fhNext (d : Int) (status : Int) : fasthttpchrono.RequestHandler :=
  fun w => { ctx := { w.ctx with StatusCode := status }, clock := w.clock + d }

/-- The configuration of `fasthttpchrono/example/main.go`. -/
def fhConfig : fasthttpchrono.Config :=
  { Enabled := true
    WarningThreshold := 200 * time.Millisecond
    ErrorThreshold := 1 * time.Second
    LogAllRequests := true
    Logger := some (LoggerFn.user 1)
    SkipPaths := ["/health"] }

def ginCtx : ginchrono.Context :=
  { Method := "GET", Path := "/slow", ClientIP := "10.0.0.7", Status := 200, Errors := [] }

/-- A gin handler chain that takes `d` nanoseconds, answers with `status` and records
the errors `errs`. -/
def ginNext (d : Int) (status : Int) (errs : List String) : ginchrono.HandlerFunc :=
  fun c => { ctx := { c.ctx with Status := status, Errors := c.ctx.Errors ++ errs },
             clock := c.clock + d }

/-- The configuration of `ginchrono/example/main.go`. -/
def ginConfig : ginchrono.Config :=
  { Enabled := true
    WarningThreshold := 200 * time.Millisecond
    ErrorThreshold := 1 * time.Second
    LogAllRequests := true
    Logger := some (LoggerFn.user 1) }

/-- A heap with one backing array, at address 0, holding "/health" and room for more. -/
def heap : memory.Heap :=
  { cells := fun a i => if a = 0 ∧ i = 0 then "/health" else "", next := 1 }

/-- The example configuration as a variable, `SkipPaths` of length 1 and capacity 4. -/
def fhConfigVar : fasthttpchrono.ConfigVar :=
  { Enabled := true
    WarningThreshold := 200 * time.Millisecond
    ErrorThreshold := 1 * time.Second
    LogAllRequests := true
    Logger := some (LoggerFn.user 1)
    SkipPaths := { array := 0, len := 1, cap := 4 } }

end Sample

set_option maxRecDepth 100000

/-! ## Lemmas on the model of fmt -/

theorem fmt.fmtInteger_eq (n : Int) : String.mk (fmt.fmtInteger n) = toString n := by
  cases n with
  | ofNat m => simp [fmt.fmtInteger]; rfl
  | negSucc m => simp [fmt.fmtInteger, Int.negSucc_lt_zero]; rfl

theorem fmt.doPrintf_line (a b c d f g h i : String) (n : Int) :
    fmt.doPrintf "%s[%s]%s %v | %3d | %13v | %15s | %-7s %s".data
      ⟨.text, [.str a, .str b, .str c, .str d, .int n, .stringer f, .str g, .str h, .str i], []⟩
    = some (a.data ++ ['['] ++ b.data ++ [']'] ++ c.data ++ [' '] ++ d.data ++ [' ', '|', ' '] ++
        fmt.pad false 3 (fmt.fmtInteger n) ++ [' ', '|', ' '] ++ fmt.pad false 13 f.data ++
        [' ', '|', ' '] ++ fmt.pad false 15 g.data ++ [' ', '|', ' '] ++ fmt.pad true 7 h.data ++
        [' '] ++ i.data) := by
  simp [fmt.doPrintf, fmt.step, fmt.printVerb, fmt.printArg, fmt.pad]

/-- The format string of both variants is inside the modelled fragment, and what it
prints is the line of the specification. -/
theorem fmt.Sprintf_line (a b c d f g h i : String) (n : Int) :
    fmt.Sprintf "%s[%s]%s %v | %3d | %13v | %15s | %-7s %s"
      [.str a, .str b, .str c, .str d, .int n, .stringer f, .str g, .str h, .str i]
    = some (a ++ "[" ++ b ++ "]" ++ c ++ " " ++ d ++ " | " ++ Spec.rightAlign 3 (toString n) ++
        " | " ++ Spec.rightAlign 13 f ++ " | " ++ Spec.rightAlign 15 g ++ " | " ++
        Spec.leftAlign 7 h ++ " " ++ i) := by
  unfold fmt.Sprintf
  rw [fmt.doPrintf_line]
  simp only [Option.map_some', Option.some.injEq]
  apply String.ext
  rw [← fmt.fmtInteger_eq]
  simp only [String.data_append, Spec.rightAlign, Spec.leftAlign, fmt.pad, fmt.writePadding,
    String.length, List.append_assoc]
  simp

theorem fmt.Sprintf_tail (u : String) : fmt.Sprintf " | %s" [.str u] = some (" | " ++ u) := by
  unfold fmt.Sprintf
  have h : fmt.doPrintf " | %s".data ⟨.text, [.str u], []⟩ = some ([' ', '|', ' '] ++ u.data) := by
    simp [fmt.doPrintf, fmt.step, fmt.printVerb, fmt.printArg, fmt.pad]
  rw [h]
  simp only [Option.map_some', Option.some.injEq]
  apply String.ext
  simp [String.data_append]

/-! ## Lemmas on the fasthttp variant -/

namespace fasthttpchrono

theorem fh_shouldSkipPath_iff (path : String) (skipPaths : List String) :
    shouldSkipPath path skipPaths = true ↔ path ∈ skipPaths := by
  induction skipPaths with
  | nil => simp [shouldSkipPath]
  | cons x xs ih =>
      by_cases hx : x = path
      · simp [shouldSkipPath, hx]
      · have hx2 : ¬ path = x := fun e => hx e.symm
        simp [shouldSkipPath, hx, hx2, ih]

theorem fh_determineLogLevel_cases (d : time.Duration) (c : Config) :
    determineLogLevel d c = INFO ∨ determineLogLevel d c = WARN ∨
      determineLogLevel d c = ERROR := by
  unfold determineLogLevel
  split
  · exact Or.inr (Or.inr rfl)
  · split
    · exact Or.inr (Or.inl rfl)
    · exact Or.inl rfl

theorem fh_getLogLevelColor_eq (level : LogLevel) : getLogLevelColor level = Spec.colour level :=
  rfl

/-- The line the fasthttp variant builds for the state `w` the handler left, when the
clock read `start` before the handler ran. -/
theorem fh_message_eq (host : Host) (config : Config) (start : Int) (w : World RequestCtx) :
    (if w.ctx.UserAgent ≠ "" then
        (fmt.Sprintf "%s[%s]%s %v | %3d | %13v | %15s | %-7s %s"
          [.str (getLogLevelColor (determineLogLevel (time.Since start w.clock) config)),
           .str (determineLogLevel (time.Since start w.clock) config),
           .str "\x1b[0m",
           .str (host.timeFormat "2006/01/02 - 15:04:05" w.clock),
           .int w.ctx.StatusCode,
           .stringer (host.durationString (time.Since start w.clock)),
           .str w.ctx.RemoteIP,
           .str w.ctx.Method,
           .str w.ctx.Path]).getD "" ++ (fmt.Sprintf " | %s" [.str w.ctx.UserAgent]).getD ""
      else
        (fmt.Sprintf "%s[%s]%s %v | %3d | %13v | %15s | %-7s %s"
          [.str (getLogLevelColor (determineLogLevel (time.Since start w.clock) config)),
           .str (determineLogLevel (time.Since start w.clock) config),
           .str "\x1b[0m",
           .str (host.timeFormat "2006/01/02 - 15:04:05" w.clock),
           .int w.ctx.StatusCode,
           .stringer (host.durationString (time.Since start w.clock)),
           .str w.ctx.RemoteIP,
           .str w.ctx.Method,
           .str w.ctx.Path]).getD "")
    = Spec.fasthttpLine (determineLogLevel (time.Since start w.clock) config)
        (host.timeFormat "2006/01/02 - 15:04:05" w.clock) w.ctx.StatusCode
        (host.durationString (time.Since start w.clock)) w.ctx.RemoteIP w.ctx.Method w.ctx.Path
        w.ctx.UserAgent := by
  rw [fmt.Sprintf_line, fmt.Sprintf_tail]
  unfold Spec.fasthttpLine Spec.logLine
  rw [fh_getLogLevelColor_eq]
  by_cases hu : w.ctx.UserAgent = ""
  · simp [hu]
  · simp [hu]

/-- What the wrapped handler does, case by case. -/
theorem fh_New_run (host : Host) (config : Config) (next : RequestHandler)
    (w : World RequestCtx) :
    New host config next w =
      if config.Enabled = false ∨ w.ctx.Path ∈ config.SkipPaths then (next w, [Call.next])
      else if config.LogAllRequests = false ∧
          determineLogLevel (time.Since w.clock (next w).clock) config = INFO then
        (next w, [Call.next])
      else
        (next w, [Call.next,
          match config.Logger with
          | some f => Call.logger f
              (Spec.fasthttpLine (determineLogLevel (time.Since w.clock (next w).clock) config)
                (host.timeFormat "2006/01/02 - 15:04:05" (next w).clock) (next w).ctx.StatusCode
                (host.durationString (time.Since w.clock (next w).clock)) (next w).ctx.RemoteIP
                (next w).ctx.Method (next w).ctx.Path (next w).ctx.UserAgent) []
          | none => Call.logPrint
              (Spec.fasthttpLine (determineLogLevel (time.Since w.clock (next w).clock) config)
                (host.timeFormat "2006/01/02 - 15:04:05" (next w).clock) (next w).ctx.StatusCode
                (host.durationString (time.Since w.clock (next w).clock)) (next w).ctx.RemoteIP
                (next w).ctx.Method (next w).ctx.Path (next w).ctx.UserAgent)]) := by
  unfold New
  by_cases h1 : config.Enabled = false ∨ w.ctx.Path ∈ config.SkipPaths
  · have h1b : (!config.Enabled || shouldSkipPath w.ctx.Path config.SkipPaths) = true := by
      rcases h1 with h | h
      · simp [h]
      · simp [(fh_shouldSkipPath_iff _ _).2 h]
    rw [if_pos h1, if_pos h1b]
  · have h1b : ¬ (!config.Enabled || shouldSkipPath w.ctx.Path config.SkipPaths) = true := by
      intro h
      apply h1
      simp only [Bool.or_eq_true, Bool.not_eq_true', fh_shouldSkipPath_iff] at h
      exact h
    rw [if_neg h1, if_neg h1b]
    by_cases h2 : config.LogAllRequests = false ∧
        determineLogLevel (time.Since w.clock (next w).clock) config = INFO
    · have h2b : (!config.LogAllRequests) = true ∧
          determineLogLevel (time.Since w.clock (next w).clock) config = INFO := by
        simpa using h2
      simp only [if_pos h2, if_pos h2b]
    · have h2b : ¬ ((!config.LogAllRequests) = true ∧
          determineLogLevel (time.Since w.clock (next w).clock) config = INFO) := by
        simpa using h2
      simp only [if_neg h2, if_neg h2b]
      rw [fh_message_eq]
      cases config.Logger <;> rfl

/-- The lines the wrapped handler emits, case by case. -/
theorem fh_emitted_New (host : Host) (config : Config) (next : RequestHandler)
    (w : World RequestCtx) :
    emitted (New host config next w).2 =
      if config.Enabled = false ∨ w.ctx.Path ∈ config.SkipPaths then []
      else if config.LogAllRequests = false ∧
          determineLogLevel (time.Since w.clock (next w).clock) config = INFO then []
      else
        [Spec.fasthttpLine (determineLogLevel (time.Since w.clock (next w).clock) config)
          (host.timeFormat "2006/01/02 - 15:04:05" (next w).clock) (next w).ctx.StatusCode
          (host.durationString (time.Since w.clock (next w).clock)) (next w).ctx.RemoteIP
          (next w).ctx.Method (next w).ctx.Path (next w).ctx.UserAgent] := by
  rw [fh_New_run]
  split
  · rfl
  · split
    · rfl
    · cases config.Logger <;> rfl

end fasthttpchrono

/-! ## Lemmas on the gin variant -/

namespace ginchrono

theorem gin_determineLogLevel_cases (d : time.Duration) (c : Config) :
    determineLogLevel d c = INFO ∨ determineLogLevel d c = WARN ∨
      determineLogLevel d c = ERROR := by
  unfold determineLogLevel
  split
  · exact Or.inr (Or.inr rfl)
  · split
    · exact Or.inr (Or.inl rfl)
    · exact Or.inl rfl

theorem gin_getLogLevelColor_eq (level : LogLevel) : getLogLevelColor level = Spec.colour level :=
  rfl

/-- The line the gin variant builds for the state `c` the chain left, when the clock read
`start` before the chain ran. -/
theorem gin_message_eq (host : Host) (config : Config) (start : Int) (c : World Context) :
    (if c.ctx.Errors.length > 0 then
        (fmt.Sprintf "%s[%s]%s %v | %3d | %13v | %15s | %-7s %s"
          [.str (getLogLevelColor (determineLogLevel (time.Since start c.clock) config)),
           .str (determineLogLevel (time.Since start c.clock) config),
           .str "\x1b[0m",
           .str (host.timeFormat "2006/01/02 - 15:04:05" c.clock),
           .int c.ctx.Status,
           .stringer (host.durationString (time.Since start c.clock)),
           .str c.ctx.ClientIP,
           .str c.ctx.Method,
           .str c.ctx.Path]).getD "" ++ " | " ++ host.errorsString c.ctx.Errors
      else
        (fmt.Sprintf "%s[%s]%s %v | %3d | %13v | %15s | %-7s %s"
          [.str (getLogLevelColor (determineLogLevel (time.Since start c.clock) config)),
           .str (determineLogLevel (time.Since start c.clock) config),
           .str "\x1b[0m",
           .str (host.timeFormat "2006/01/02 - 15:04:05" c.clock),
           .int c.ctx.Status,
           .stringer (host.durationString (time.Since start c.clock)),
           .str c.ctx.ClientIP,
           .str c.ctx.Method,
           .str c.ctx.Path]).getD "")
    = Spec.ginLine (determineLogLevel (time.Since start c.clock) config)
        (host.timeFormat "2006/01/02 - 15:04:05" c.clock) c.ctx.Status
        (host.durationString (time.Since start c.clock)) c.ctx.ClientIP c.ctx.Method c.ctx.Path
        c.ctx.Errors (host.errorsString c.ctx.Errors) := by
  rw [fmt.Sprintf_line]
  unfold Spec.ginLine Spec.logLine
  rw [gin_getLogLevelColor_eq]
  by_cases he : c.ctx.Errors = []
  · simp [he]
  · have hl : c.ctx.Errors.length > 0 := List.length_pos.2 he
    simp [he, hl, String.append_assoc]

/-- What the wrapped handler does, case by case. -/
theorem gin_New_run (host : Host) (config : Config) (next : HandlerFunc) (c : World Context) :
    New host config next c =
      if config.Enabled = false then (next c, [Call.next])
      else if config.LogAllRequests = false ∧
          determineLogLevel (time.Since c.clock (next c).clock) config = INFO then
        (next c, [Call.next])
      else
        (next c, [Call.next,
          match config.Logger with
          | some f => Call.logger f
              (Spec.ginLine (determineLogLevel (time.Since c.clock (next c).clock) config)
                (host.timeFormat "2006/01/02 - 15:04:05" (next c).clock) (next c).ctx.Status
                (host.durationString (time.Since c.clock (next c).clock)) (next c).ctx.ClientIP
                (next c).ctx.Method (next c).ctx.Path (next c).ctx.Errors
                (host.errorsString (next c).ctx.Errors)) []
          | none => Call.logPrint
              (Spec.ginLine (determineLogLevel (time.Since c.clock (next c).clock) config)
                (host.timeFormat "2006/01/02 - 15:04:05" (next c).clock) (next c).ctx.Status
                (host.durationString (time.Since c.clock (next c).clock)) (next c).ctx.ClientIP
                (next c).ctx.Method (next c).ctx.Path (next c).ctx.Errors
                (host.errorsString (next c).ctx.Errors))]) := by
  unfold New
  by_cases h1 : config.Enabled = false
  · have h1b : (!config.Enabled) = true := by simp [h1]
    rw [if_pos h1, if_pos h1b]
  · have h1b : ¬ (!config.Enabled) = true := by simpa using h1
    rw [if_neg h1, if_neg h1b]
    by_cases h2 : config.LogAllRequests = false ∧
        determineLogLevel (time.Since c.clock (next c).clock) config = INFO
    · have h2b : (!config.LogAllRequests) = true ∧
          determineLogLevel (time.Since c.clock (next c).clock) config = INFO := by
        simpa using h2
      simp only [if_pos h2, if_pos h2b]
    · have h2b : ¬ ((!config.LogAllRequests) = true ∧
          determineLogLevel (time.Since c.clock (next c).clock) config = INFO) := by
        simpa using h2
      simp only [if_neg h2, if_neg h2b]
      rw [gin_message_eq]
      cases config.Logger <;> rfl

/-- The lines the wrapped handler emits, case by case. -/
theorem gin_emitted_New (host : Host) (config : Config) (next : HandlerFunc)
    (c : World Context) :
    emitted (New host config next c).2 =
      if config.Enabled = false then []
      else if config.LogAllRequests = false ∧
          determineLogLevel (time.Since c.clock (next c).clock) config = INFO then []
      else
        [Spec.ginLine (determineLogLevel (time.Since c.clock (next c).clock) config)
          (host.timeFormat "2006/01/02 - 15:04:05" (next c).clock) (next c).ctx.Status
          (host.durationString (time.Since c.clock (next c).clock)) (next c).ctx.ClientIP
          (next c).ctx.Method (next c).ctx.Path (next c).ctx.Errors
          (host.errorsString (next c).ctx.Errors)] := by
  rw [gin_New_run]
  split
  · rfl
  · split
    · rfl
    · cases config.Logger <;> rfl

end ginchrono

/-! ## Classification -/

/-- C1: in both variants `determineLogLevel d c` is ERROR if `c.ErrorThreshold > 0` and
`d >= c.ErrorThreshold`; otherwise WARN if `c.WarningThreshold > 0` and
`d >= c.WarningThreshold`; otherwise INFO. Hence a threshold that is zero or negative never
produces its level, and a duration that meets both thresholds is ERROR. -/
theorem c1_determineLogLevel_tiers (d : time.Duration) (cf : fasthttpchrono.Config)
    (cg : ginchrono.Config) :
    ((cf.ErrorThreshold > 0 ∧ d ≥ cf.ErrorThreshold →
        fasthttpchrono.determineLogLevel d cf = "ERROR") ∧
     (¬ (cf.ErrorThreshold > 0 ∧ d ≥ cf.ErrorThreshold) →
        cf.WarningThreshold > 0 ∧ d ≥ cf.WarningThreshold →
        fasthttpchrono.determineLogLevel d cf = "WARN") ∧
     (¬ (cf.ErrorThreshold > 0 ∧ d ≥ cf.ErrorThreshold) →
        ¬ (cf.WarningThreshold > 0 ∧ d ≥ cf.WarningThreshold) →
        fasthttpchrono.determineLogLevel d cf = "INFO") ∧
     (cf.ErrorThreshold ≤ 0 → fasthttpchrono.determineLogLevel d cf ≠ "ERROR") ∧
     (cf.WarningThreshold ≤ 0 → fasthttpchrono.determineLogLevel d cf ≠ "WARN") ∧
     (cf.ErrorThreshold > 0 ∧ d ≥ cf.ErrorThreshold ∧ cf.WarningThreshold > 0 ∧
        d ≥ cf.WarningThreshold → fasthttpchrono.determineLogLevel d cf = "ERROR")) ∧
    ((cg.ErrorThreshold > 0 ∧ d ≥ cg.ErrorThreshold →
        ginchrono.determineLogLevel d cg = "ERROR") ∧
     (¬ (cg.ErrorThreshold > 0 ∧ d ≥ cg.ErrorThreshold) →
        cg.WarningThreshold > 0 ∧ d ≥ cg.WarningThreshold →
        ginchrono.determineLogLevel d cg = "WARN") ∧
     (¬ (cg.ErrorThreshold > 0 ∧ d ≥ cg.ErrorThreshold) →
        ¬ (cg.WarningThreshold > 0 ∧ d ≥ cg.WarningThreshold) →
        ginchrono.determineLogLevel d cg = "INFO") ∧
     (cg.ErrorThreshold ≤ 0 → ginchrono.determineLogLevel d cg ≠ "ERROR") ∧
     (cg.WarningThreshold ≤ 0 → ginchrono.determineLogLevel d cg ≠ "WARN") ∧
     (cg.ErrorThreshold > 0 ∧ d ≥ cg.ErrorThreshold ∧ cg.WarningThreshold > 0 ∧
        d ≥ cg.WarningThreshold → ginchrono.determineLogLevel d cg = "ERROR")) := by
  have hWE : ("WARN" : String) ≠ "ERROR" := by decide
  have hIE : ("INFO" : String) ≠ "ERROR" := by decide
  have hEW : ("ERROR" : String) ≠ "WARN" := by decide
  have hIW : ("INFO" : String) ≠ "WARN" := by decide
  refine ⟨⟨?_, ?_, ?_, ?_, ?_, ?_⟩, ⟨?_, ?_, ?_, ?_, ?_, ?_⟩⟩
  · intro h
    simp only [fasthttpchrono.determineLogLevel, if_pos h, fasthttpchrono.ERROR]
  · intro h1 h2
    simp only [fasthttpchrono.determineLogLevel, if_neg h1, if_pos h2, fasthttpchrono.WARN]
  · intro h1 h2
    simp only [fasthttpchrono.determineLogLevel, if_neg h1, if_neg h2, fasthttpchrono.INFO]
  · intro h
    have h1 : ¬ (cf.ErrorThreshold > 0 ∧ d ≥ cf.ErrorThreshold) :=
      fun hh => absurd hh.1 (not_lt.2 h)
    unfold fasthttpchrono.determineLogLevel
    rw [if_neg h1]
    split
    · exact hWE
    · exact hIE
  · intro h
    have h2 : ¬ (cf.WarningThreshold > 0 ∧ d ≥ cf.WarningThreshold) :=
      fun hh => absurd hh.1 (not_lt.2 h)
    unfold fasthttpchrono.determineLogLevel
    rw [if_neg h2]
    split
    · exact hEW
    · exact hIW
  · intro h
    simp only [fasthttpchrono.determineLogLevel, if_pos (And.intro h.1 h.2.1),
      fasthttpchrono.ERROR]
  · intro h
    simp only [ginchrono.determineLogLevel, if_pos h, ginchrono.ERROR]
  · intro h1 h2
    simp only [ginchrono.determineLogLevel, if_neg h1, if_pos h2, ginchrono.WARN]
  · intro h1 h2
    simp only [ginchrono.determineLogLevel, if_neg h1, if_neg h2, ginchrono.INFO]
  · intro h
    have h1 : ¬ (cg.ErrorThreshold > 0 ∧ d ≥ cg.ErrorThreshold) :=
      fun hh => absurd hh.1 (not_lt.2 h)
    unfold ginchrono.determineLogLevel
    rw [if_neg h1]
    split
    · exact hWE
    · exact hIE
  · intro h
    have h2 : ¬ (cg.WarningThreshold > 0 ∧ d ≥ cg.WarningThreshold) :=
      fun hh => absurd hh.1 (not_lt.2 h)
    unfold ginchrono.determineLogLevel
    rw [if_neg h2]
    split
    · exact hEW
    · exact hIW
  · intro h
    simp only [ginchrono.determineLogLevel, if_pos (And.intro h.1 h.2.1), ginchrono.ERROR]

/-- C1 at the thresholds of the example programs, 200ms and 1000ms: 0ms is INFO, 600ms is
WARN, 2100ms is ERROR, in both variants. -/
theorem c1_determineLogLevel_tiers_witness :
    (fasthttpchrono.determineLogLevel (0 * time.Millisecond) Sample.fhConfig = "INFO" ∧
     fasthttpchrono.determineLogLevel (600 * time.Millisecond) Sample.fhConfig = "WARN" ∧
     fasthttpchrono.determineLogLevel (2100 * time.Millisecond) Sample.fhConfig = "ERROR") ∧
    (ginchrono.determineLogLevel (0 * time.Millisecond) Sample.ginConfig = "INFO" ∧
     ginchrono.determineLogLevel (600 * time.Millisecond) Sample.ginConfig = "WARN" ∧
     ginchrono.determineLogLevel (2100 * time.Millisecond) Sample.ginConfig = "ERROR") :=
  ⟨⟨(c1_determineLogLevel_tiers (0 * time.Millisecond) Sample.fhConfig Sample.ginConfig).1.2.2.1
      (by decide) (by decide),
    (c1_determineLogLevel_tiers (600 * time.Millisecond) Sample.fhConfig Sample.ginConfig).1.2.1
      (by decide) (by decide),
    (c1_determineLogLevel_tiers (2100 * time.Millisecond) Sample.fhConfig Sample.ginConfig).1.1
      (by decide)⟩,
   ⟨(c1_determineLogLevel_tiers (0 * time.Millisecond) Sample.fhConfig Sample.ginConfig).2.2.2.1
      (by decide) (by decide),
    (c1_determineLogLevel_tiers (600 * time.Millisecond) Sample.fhConfig Sample.ginConfig).2.2.1
      (by decide) (by decide),
    (c1_determineLogLevel_tiers (2100 * time.Millisecond) Sample.fhConfig Sample.ginConfig).2.1
      (by decide)⟩⟩

/-- C10: with `0 < ErrorThreshold <= WarningThreshold` the middle tier is gone: for every
duration `determineLogLevel` is INFO or ERROR and never WARN, in both variants. -/
theorem c10_misordered_thresholds_drop_warn (d : time.Duration) :
    (∀ c : fasthttpchrono.Config, 0 < c.ErrorThreshold → c.ErrorThreshold ≤ c.WarningThreshold →
        fasthttpchrono.determineLogLevel d c ≠ "WARN" ∧
        (fasthttpchrono.determineLogLevel d c = "INFO" ∨
          fasthttpchrono.determineLogLevel d c = "ERROR")) ∧
    (∀ c : ginchrono.Config, 0 < c.ErrorThreshold → c.ErrorThreshold ≤ c.WarningThreshold →
        ginchrono.determineLogLevel d c ≠ "WARN" ∧
        (ginchrono.determineLogLevel d c = "INFO" ∨
          ginchrono.determineLogLevel d c = "ERROR")) := by
  have hEW : ("ERROR" : String) ≠ "WARN" := by decide
  have hIW : ("INFO" : String) ≠ "WARN" := by decide
  constructor
  · intro c h0 hle
    unfold fasthttpchrono.determineLogLevel
    by_cases h1 : c.ErrorThreshold > 0 ∧ d ≥ c.ErrorThreshold
    · rw [if_pos h1]
      exact ⟨hEW, Or.inr rfl⟩
    · have h2 : ¬ (c.WarningThreshold > 0 ∧ d ≥ c.WarningThreshold) :=
        fun hh => h1 ⟨h0, le_trans hle hh.2⟩
      rw [if_neg h1, if_neg h2]
      exact ⟨hIW, Or.inl rfl⟩
  · intro c h0 hle
    unfold ginchrono.determineLogLevel
    by_cases h1 : c.ErrorThreshold > 0 ∧ d ≥ c.ErrorThreshold
    · rw [if_pos h1]
      exact ⟨hEW, Or.inr rfl⟩
    · have h2 : ¬ (c.WarningThreshold > 0 ∧ d ≥ c.WarningThreshold) :=
        fun hh => h1 ⟨h0, le_trans hle hh.2⟩
      rw [if_neg h1, if_neg h2]
      exact ⟨hIW, Or.inl rfl⟩

/-- C10 at ErrorThreshold 200ms and WarningThreshold 1000ms: a request of 1500ms, past
both thresholds, is not WARN, in either variant. -/
theorem c10_misordered_thresholds_drop_warn_witness :
    fasthttpchrono.determineLogLevel (1500 * time.Millisecond)
        { Sample.fhConfig with ErrorThreshold := 200 * time.Millisecond,
                               WarningThreshold := 1000 * time.Millisecond } ≠ "WARN" ∧
    ginchrono.determineLogLevel (1500 * time.Millisecond)
        { Sample.ginConfig with ErrorThreshold := 200 * time.Millisecond,
                                WarningThreshold := 1000 * time.Millisecond } ≠ "WARN" :=
  ⟨((c10_misordered_thresholds_drop_warn (1500 * time.Millisecond)).1
      { Sample.fhConfig with ErrorThreshold := 200 * time.Millisecond,
                             WarningThreshold := 1000 * time.Millisecond }
      (by decide) (by decide)).1,
   ((c10_misordered_thresholds_drop_warn (1500 * time.Millisecond)).2
      { Sample.ginConfig with ErrorThreshold := 200 * time.Millisecond,
                              WarningThreshold := 1000 * time.Millisecond }
      (by decide) (by decide)).1⟩

/-! ## Skipping, suppression and emission -/

/-- C3: if the Config given to New has Enabled=false, or (fasthttp variant) the request
path is equal to an element of SkipPaths, the wrapped handler invokes the downstream
handler exactly once and emits no log line, whatever the duration, the thresholds and
LogAllRequests are. -/
theorem c3_skipped_request_is_silent (host : Host) :
    (∀ (config : fasthttpchrono.Config) (next : fasthttpchrono.RequestHandler)
        (w : World fasthttpchrono.RequestCtx),
        config.Enabled = false ∨ w.ctx.Path ∈ config.SkipPaths →
        fasthttpchrono.New host config next w = (next w, [Call.next]) ∧
        nextCalls (fasthttpchrono.New host config next w).2 = 1 ∧
        emitted (fasthttpchrono.New host config next w).2 = []) ∧
    (∀ (config : ginchrono.Config) (next : ginchrono.HandlerFunc)
        (c : World ginchrono.Context),
        config.Enabled = false →
        ginchrono.New host config next c = (next c, [Call.next]) ∧
        nextCalls (ginchrono.New host config next c).2 = 1 ∧
        emitted (ginchrono.New host config next c).2 = []) := by
  constructor
  · intro config next w h
    have e : fasthttpchrono.New host config next w = (next w, [Call.next]) := by
      rw [fasthttpchrono.fh_New_run, if_pos h]
    rw [e]
    exact ⟨rfl, rfl, rfl⟩
  · intro config next c h
    have e : ginchrono.New host config next c = (next c, [Call.next]) := by
      rw [ginchrono.gin_New_run, if_pos h]
    rw [e]
    exact ⟨rfl, rfl, rfl⟩

/-- C3 on a request for the skipped path of the fasthttp example, slow enough for ERROR
and with LogAllRequests set, and on a disabled gin middleware. -/
theorem c3_skipped_request_is_silent_witness :
    emitted (fasthttpchrono.New Sample.host Sample.fhConfig
      (Sample.fhNext (2100 * time.Millisecond) 200)
      { ctx := { Sample.fhCtx with Path := "/health" }, clock := 0 }).2 = [] ∧
    emitted (ginchrono.New Sample.host { Sample.ginConfig with Enabled := false }
      (Sample.ginNext (2100 * time.Millisecond) 200 [])
      { ctx := Sample.ginCtx, clock := 0 }).2 = [] :=
  ⟨((c3_skipped_request_is_silent Sample.host).1 Sample.fhConfig
      (Sample.fhNext (2100 * time.Millisecond) 200)
      { ctx := { Sample.fhCtx with Path := "/health" }, clock := 0 }
      (Or.inr (by decide))).2.2,
   ((c3_skipped_request_is_silent Sample.host).2 { Sample.ginConfig with Enabled := false }
      (Sample.ginNext (2100 * time.Millisecond) 200 [])
      { ctx := Sample.ginCtx, clock := 0 } rfl).2.2⟩

/-- C2: for a request that is not skipped (Enabled=true and, in the fasthttp variant, the
path equal to no element of SkipPaths) the wrapped handler invokes the downstream handler
exactly once, first, and then emits exactly one log line if LogAllRequests=true or the
level is WARN or ERROR, and none if LogAllRequests=false and the level is INFO. -/
theorem c2_one_line_unless_suppressed (host : Host) :
    (∀ (config : fasthttpchrono.Config) (next : fasthttpchrono.RequestHandler)
        (w : World fasthttpchrono.RequestCtx),
        config.Enabled = true → w.ctx.Path ∉ config.SkipPaths →
        (fasthttpchrono.New host config next w).1 = next w ∧
        nextCalls (fasthttpchrono.New host config next w).2 = 1 ∧
        (∃ rest, (fasthttpchrono.New host config next w).2 = Call.next :: rest) ∧
        (config.LogAllRequests = true ∨
          fasthttpchrono.determineLogLevel (time.Since w.clock (next w).clock) config = "WARN" ∨
          fasthttpchrono.determineLogLevel (time.Since w.clock (next w).clock) config = "ERROR" →
          ∃ line, emitted (fasthttpchrono.New host config next w).2 = [line]) ∧
        (config.LogAllRequests = false ∧
          fasthttpchrono.determineLogLevel (time.Since w.clock (next w).clock) config = "INFO" →
          emitted (fasthttpchrono.New host config next w).2 = [])) ∧
    (∀ (config : ginchrono.Config) (next : ginchrono.HandlerFunc)
        (c : World ginchrono.Context),
        config.Enabled = true →
        (ginchrono.New host config next c).1 = next c ∧
        nextCalls (ginchrono.New host config next c).2 = 1 ∧
        (∃ rest, (ginchrono.New host config next c).2 = Call.next :: rest) ∧
        (config.LogAllRequests = true ∨
          ginchrono.determineLogLevel (time.Since c.clock (next c).clock) config = "WARN" ∨
          ginchrono.determineLogLevel (time.Since c.clock (next c).clock) config = "ERROR" →
          ∃ line, emitted (ginchrono.New host config next c).2 = [line]) ∧
        (config.LogAllRequests = false ∧
          ginchrono.determineLogLevel (time.Since c.clock (next c).clock) config = "INFO" →
          emitted (ginchrono.New host config next c).2 = [])) := by
  have hWI : ("WARN" : String) ≠ "INFO" := by decide
  have hEI : ("ERROR" : String) ≠ "INFO" := by decide
  constructor
  · intro config next w hen hpath
    have h1 : ¬ (config.Enabled = false ∨ w.ctx.Path ∈ config.SkipPaths) := by
      rintro (h | h)
      · rw [hen] at h
        exact Bool.noConfusion h
      · exact hpath h
    rw [fasthttpchrono.fh_New_run, if_neg h1]
    by_cases h2 : config.LogAllRequests = false ∧
        fasthttpchrono.determineLogLevel (time.Since w.clock (next w).clock) config =
          fasthttpchrono.INFO
    · rw [if_pos h2]
      refine ⟨rfl, rfl, ⟨[], rfl⟩, ?_, fun _ => rfl⟩
      rintro (h | h | h)
      · rw [h2.1] at h
        exact Bool.noConfusion h
      · exact absurd (h.symm.trans h2.2) hWI
      · exact absurd (h.symm.trans h2.2) hEI
    · rw [if_neg h2]
      refine ⟨rfl, ?_, ⟨_, rfl⟩, ?_, fun h => absurd h h2⟩
      · cases config.Logger <;> rfl
      · intro _
        cases config.Logger
        · exact ⟨_, rfl⟩
        · exact ⟨_, rfl⟩
  · intro config next c hen
    have h1 : ¬ (config.Enabled = false) := by
      intro h
      rw [hen] at h
      exact Bool.noConfusion h
    rw [ginchrono.gin_New_run, if_neg h1]
    by_cases h2 : config.LogAllRequests = false ∧
        ginchrono.determineLogLevel (time.Since c.clock (next c).clock) config = ginchrono.INFO
    · rw [if_pos h2]
      refine ⟨rfl, rfl, ⟨[], rfl⟩, ?_, fun _ => rfl⟩
      rintro (h | h | h)
      · rw [h2.1] at h
        exact Bool.noConfusion h
      · exact absurd (h.symm.trans h2.2) hWI
      · exact absurd (h.symm.trans h2.2) hEI
    · rw [if_neg h2]
      refine ⟨rfl, ?_, ⟨_, rfl⟩, ?_, fun h => absurd h h2⟩
      · cases config.Logger <;> rfl
      · intro _
        cases config.Logger
        · exact ⟨_, rfl⟩
        · exact ⟨_, rfl⟩

/-- C2 on the example configuration: a request of 600ms to a path that is not skipped
invokes the downstream handler once and yields one line, and under the default
configuration a request of 100ms yields none, in both variants. -/
theorem c2_one_line_unless_suppressed_witness :
    (nextCalls (fasthttpchrono.New Sample.host Sample.fhConfig
        (Sample.fhNext (600 * time.Millisecond) 200) { ctx := Sample.fhCtx, clock := 0 }).2 = 1 ∧
     (∃ line, emitted (fasthttpchrono.New Sample.host Sample.fhConfig
        (Sample.fhNext (600 * time.Millisecond) 200) { ctx := Sample.fhCtx, clock := 0 }).2
          = [line]) ∧
     emitted (fasthttpchrono.New Sample.host fasthttpchrono.DefaultConfig
        (Sample.fhNext (100 * time.Millisecond) 200) { ctx := Sample.fhCtx, clock := 0 }).2
          = []) ∧
    (nextCalls (ginchrono.New Sample.host Sample.ginConfig
        (Sample.ginNext (600 * time.Millisecond) 200 []) { ctx := Sample.ginCtx, clock := 0 }).2
          = 1 ∧
     (∃ line, emitted (ginchrono.New Sample.host Sample.ginConfig
        (Sample.ginNext (600 * time.Millisecond) 200 []) { ctx := Sample.ginCtx, clock := 0 }).2
          = [line]) ∧
     emitted (ginchrono.New Sample.host ginchrono.DefaultConfig
        (Sample.ginNext (100 * time.Millisecond) 200 []) { ctx := Sample.ginCtx, clock := 0 }).2
          = []) :=
  ⟨⟨((c2_one_line_unless_suppressed Sample.host).1 Sample.fhConfig
        (Sample.fhNext (600 * time.Millisecond) 200) { ctx := Sample.fhCtx, clock := 0 }
        rfl (by decide)).2.1,
    ((c2_one_line_unless_suppressed Sample.host).1 Sample.fhConfig
        (Sample.fhNext (600 * time.Millisecond) 200) { ctx := Sample.fhCtx, clock := 0 }
        rfl (by decide)).2.2.2.1 (Or.inl rfl),
    ((c2_one_line_unless_suppressed Sample.host).1 fasthttpchrono.DefaultConfig
        (Sample.fhNext (100 * time.Millisecond) 200) { ctx := Sample.fhCtx, clock := 0 }
        rfl (by decide)).2.2.2.2 ⟨rfl, by decide⟩⟩,
   ⟨((c2_one_line_unless_suppressed Sample.host).2 Sample.ginConfig
        (Sample.ginNext (600 * time.Millisecond) 200 []) { ctx := Sample.ginCtx, clock := 0 }
        rfl).2.1,
    ((c2_one_line_unless_suppressed Sample.host).2 Sample.ginConfig
        (Sample.ginNext (600 * time.Millisecond) 200 []) { ctx := Sample.ginCtx, clock := 0 }
        rfl).2.2.2.1 (Or.inl rfl),
    ((c2_one_line_unless_suppressed Sample.host).2 ginchrono.DefaultConfig
        (Sample.ginNext (100 * time.Millisecond) 200 []) { ctx := Sample.ginCtx, clock := 0 }
        rfl).2.2.2.2 ⟨rfl, by decide⟩⟩⟩

/-- Facts on the alignment of the specification: the width is a minimum and nothing is
cut off. -/
theorem Spec.align_facts (n : Nat) (s : String) :
    (Spec.rightAlign n s).length = max n s.length ∧
    (Spec.leftAlign n s).length = max n s.length ∧
    (n ≤ s.length → Spec.rightAlign n s = s) ∧
    (n ≤ s.length → Spec.leftAlign n s = s) := by
  refine ⟨?_, ?_, ?_, ?_⟩
  · simp only [Spec.rightAlign, String.length, String.data_append, List.length_append,
      List.length_replicate]
    omega
  · simp only [Spec.leftAlign, String.length, String.data_append, List.length_append,
      List.length_replicate]
    omega
  · intro h
    apply String.ext
    simp [Spec.rightAlign, String.data_append, Nat.sub_eq_zero_of_le h]
  · intro h
    apply String.ext
    simp [Spec.leftAlign, String.data_append, Nat.sub_eq_zero_of_le h]

/-- C5: `DefaultConfig()` has, in both variants, Enabled=true, WarningThreshold=500ms,
ErrorThreshold=2000ms, LogAllRequests=false and a non-nil logger, and in the fasthttp
variant an empty SkipPaths; a middleware built from it emits no log line for a request
whose duration is below 500ms. -/
theorem c5_default_config (host : Host) :
    (fasthttpchrono.DefaultConfig.Enabled = true ∧
     fasthttpchrono.DefaultConfig.WarningThreshold = 500 * time.Millisecond ∧
     fasthttpchrono.DefaultConfig.ErrorThreshold = 2000 * time.Millisecond ∧
     fasthttpchrono.DefaultConfig.LogAllRequests = false ∧
     fasthttpchrono.DefaultConfig.Logger ≠ none ∧
     fasthttpchrono.DefaultConfig.SkipPaths = [] ∧
     ∀ (next : fasthttpchrono.RequestHandler) (w : World fasthttpchrono.RequestCtx),
       time.Since w.clock (next w).clock < 500 * time.Millisecond →
       emitted (fasthttpchrono.New host fasthttpchrono.DefaultConfig next w).2 = []) ∧
    (ginchrono.DefaultConfig.Enabled = true ∧
     ginchrono.DefaultConfig.WarningThreshold = 500 * time.Millisecond ∧
     ginchrono.DefaultConfig.ErrorThreshold = 2000 * time.Millisecond ∧
     ginchrono.DefaultConfig.LogAllRequests = false ∧
     ginchrono.DefaultConfig.Logger ≠ none ∧
     ∀ (next : ginchrono.HandlerFunc) (c : World ginchrono.Context),
       time.Since c.clock (next c).clock < 500 * time.Millisecond →
       emitted (ginchrono.New host ginchrono.DefaultConfig next c).2 = []) ∧
    (500 * time.Millisecond = 500000000 ∧ 2000 * time.Millisecond = 2000000000) := by
  have ms : (500 * time.Millisecond : Int) = 500000000 := by decide
  have ms2 : (2000 * time.Millisecond : Int) = 2000000000 := by decide
  refine ⟨⟨rfl, rfl, rfl, rfl, ?_, rfl, ?_⟩, ⟨rfl, rfl, rfl, rfl, ?_, ?_⟩, ms, ms2⟩
  · intro h
    exact Option.noConfusion h
  · intro next w h
    rw [ms] at h
    have hI : fasthttpchrono.determineLogLevel (time.Since w.clock (next w).clock)
        fasthttpchrono.DefaultConfig = fasthttpchrono.INFO := by
      have e1 : fasthttpchrono.DefaultConfig.ErrorThreshold = (2000000000 : Int) := ms2
      have e2 : fasthttpchrono.DefaultConfig.WarningThreshold = (500000000 : Int) := ms
      unfold fasthttpchrono.determineLogLevel
      rw [e1, e2]
      have h1 : ¬ ((2000000000 : Int) > 0 ∧
          time.Since w.clock (next w).clock ≥ (2000000000 : Int)) :=
        fun hh => absurd (lt_of_le_of_lt hh.2 h) (by decide)
      have h2 : ¬ ((500000000 : Int) > 0 ∧
          time.Since w.clock (next w).clock ≥ (500000000 : Int)) :=
        fun hh => absurd (lt_of_le_of_lt hh.2 h) (lt_irrefl _)
      rw [if_neg h1, if_neg h2]
    rw [fasthttpchrono.fh_emitted_New]
    have h0 : ¬ (fasthttpchrono.DefaultConfig.Enabled = false ∨
        w.ctx.Path ∈ fasthttpchrono.DefaultConfig.SkipPaths) := by
      rintro (h | h)
      · exact Bool.noConfusion h
      · exact absurd h (List.not_mem_nil _)
    rw [if_neg h0, if_pos ⟨rfl, hI⟩]
  · intro h
    exact Option.noConfusion h
  · intro next c h
    rw [ms] at h
    have hI : ginchrono.determineLogLevel (time.Since c.clock (next c).clock)
        ginchrono.DefaultConfig = ginchrono.INFO := by
      have e1 : ginchrono.DefaultConfig.ErrorThreshold = (2000000000 : Int) := ms2
      have e2 : ginchrono.DefaultConfig.WarningThreshold = (500000000 : Int) := ms
      unfold ginchrono.determineLogLevel
      rw [e1, e2]
      have h1 : ¬ ((2000000000 : Int) > 0 ∧
          time.Since c.clock (next c).clock ≥ (2000000000 : Int)) :=
        fun hh => absurd (lt_of_le_of_lt hh.2 h) (by decide)
      have h2 : ¬ ((500000000 : Int) > 0 ∧
          time.Since c.clock (next c).clock ≥ (500000000 : Int)) :=
        fun hh => absurd (lt_of_le_of_lt hh.2 h) (lt_irrefl _)
      rw [if_neg h1, if_neg h2]
    rw [ginchrono.gin_emitted_New]
    have h0 : ¬ (ginchrono.DefaultConfig.Enabled = false) := fun h => Bool.noConfusion h
    rw [if_neg h0, if_pos ⟨rfl, hI⟩]

/-- C5 on a request of 499ms under the default configuration: nothing is emitted, in
either variant. -/
theorem c5_default_config_witness :
    emitted (fasthttpchrono.New Sample.host fasthttpchrono.DefaultConfig
      (Sample.fhNext (499 * time.Millisecond) 200) { ctx := Sample.fhCtx, clock := 0 }).2 = [] ∧
    emitted (ginchrono.New Sample.host ginchrono.DefaultConfig
      (Sample.ginNext (499 * time.Millisecond) 200 []) { ctx := Sample.ginCtx, clock := 0 }).2
      = [] :=
  ⟨(c5_default_config Sample.host).1.2.2.2.2.2.2
      (Sample.fhNext (499 * time.Millisecond) 200) { ctx := Sample.fhCtx, clock := 0 }
      (by decide),
   (c5_default_config Sample.host).2.1.2.2.2.2.2
      (Sample.ginNext (499 * time.Millisecond) 200 []) { ctx := Sample.ginCtx, clock := 0 }
      (by decide)⟩

/-! ## The text of the line -/

/-- C4: every emitted log line is the colour code of the level (ESC[31m for ERROR,
ESC[33m for WARN, ESC[32m for INFO), "[" level "]", the reset code ESC[0m, a space, the
timestamp, " | ", the status code right-aligned to a minimum width of 3, " | ", the
duration right-aligned to a minimum width of 13, " | ", the client address right-aligned
to a minimum width of 15, " | ", the method left-aligned to a minimum width of 7, a space
and the path, with longer fields not truncated. In the fasthttp variant " | " and the user
agent follow exactly when the user agent is non-empty; in the gin variant " | " and the
joined error messages follow exactly when the error list of the request is non-empty. -/
theorem c4_log_line_format (host : Host) :
    (∀ (config : fasthttpchrono.Config) (next : fasthttpchrono.RequestHandler)
        (w : World fasthttpchrono.RequestCtx) (line : String),
        line ∈ emitted (fasthttpchrono.New host config next w).2 →
        (fasthttpchrono.determineLogLevel (time.Since w.clock (next w).clock) config = "ERROR" ∨
         fasthttpchrono.determineLogLevel (time.Since w.clock (next w).clock) config = "WARN" ∨
         fasthttpchrono.determineLogLevel (time.Since w.clock (next w).clock) config = "INFO") ∧
        ((next w).ctx.UserAgent ≠ "" →
          line = Spec.logLine
              (fasthttpchrono.determineLogLevel (time.Since w.clock (next w).clock) config)
              (host.timeFormat "2006/01/02 - 15:04:05" (next w).clock) (next w).ctx.StatusCode
              (host.durationString (time.Since w.clock (next w).clock)) (next w).ctx.RemoteIP
              (next w).ctx.Method (next w).ctx.Path ++ " | " ++ (next w).ctx.UserAgent) ∧
        ((next w).ctx.UserAgent = "" →
          line = Spec.logLine
              (fasthttpchrono.determineLogLevel (time.Since w.clock (next w).clock) config)
              (host.timeFormat "2006/01/02 - 15:04:05" (next w).clock) (next w).ctx.StatusCode
              (host.durationString (time.Since w.clock (next w).clock)) (next w).ctx.RemoteIP
              (next w).ctx.Method (next w).ctx.Path)) ∧
    (∀ (config : ginchrono.Config) (next : ginchrono.HandlerFunc)
        (c : World ginchrono.Context) (line : String),
        line ∈ emitted (ginchrono.New host config next c).2 →
        (ginchrono.determineLogLevel (time.Since c.clock (next c).clock) config = "ERROR" ∨
         ginchrono.determineLogLevel (time.Since c.clock (next c).clock) config = "WARN" ∨
         ginchrono.determineLogLevel (time.Since c.clock (next c).clock) config = "INFO") ∧
        ((next c).ctx.Errors ≠ [] →
          line = Spec.logLine
              (ginchrono.determineLogLevel (time.Since c.clock (next c).clock) config)
              (host.timeFormat "2006/01/02 - 15:04:05" (next c).clock) (next c).ctx.Status
              (host.durationString (time.Since c.clock (next c).clock)) (next c).ctx.ClientIP
              (next c).ctx.Method (next c).ctx.Path ++ " | " ++
              host.errorsString (next c).ctx.Errors) ∧
        ((next c).ctx.Errors = [] →
          line = Spec.logLine
              (ginchrono.determineLogLevel (time.Since c.clock (next c).clock) config)
              (host.timeFormat "2006/01/02 - 15:04:05" (next c).clock) (next c).ctx.Status
              (host.durationString (time.Since c.clock (next c).clock)) (next c).ctx.ClientIP
              (next c).ctx.Method (next c).ctx.Path)) ∧
    (Spec.colour "ERROR" = "\x1b[31m" ∧ Spec.colour "WARN" = "\x1b[33m" ∧
      Spec.colour "INFO" = "\x1b[32m") ∧
    (∀ (n : Nat) (s : String),
      (Spec.rightAlign n s).length = max n s.length ∧
      (Spec.leftAlign n s).length = max n s.length ∧
      (n ≤ s.length → Spec.rightAlign n s = s) ∧
      (n ≤ s.length → Spec.leftAlign n s = s)) := by
  refine ⟨?_, ?_, ⟨by decide, by decide, by decide⟩, Spec.align_facts⟩
  · intro config next w line h
    rw [fasthttpchrono.fh_emitted_New] at h
    split at h
    · exact absurd h (List.not_mem_nil _)
    · split at h
      · exact absurd h (List.not_mem_nil _)
      · rw [List.mem_singleton] at h
        refine ⟨?_, ?_, ?_⟩
        · rcases fasthttpchrono.fh_determineLogLevel_cases
            (time.Since w.clock (next w).clock) config with e | e | e
          · exact Or.inr (Or.inr e)
          · exact Or.inr (Or.inl e)
          · exact Or.inl e
        · intro hu
          rw [h, Spec.fasthttpLine, if_neg hu, ← String.append_assoc]
        · intro hu
          rw [h, Spec.fasthttpLine, if_pos hu, String.append_empty]
  · intro config next c line h
    rw [ginchrono.gin_emitted_New] at h
    split at h
    · exact absurd h (List.not_mem_nil _)
    · split at h
      · exact absurd h (List.not_mem_nil _)
      · rw [List.mem_singleton] at h
        refine ⟨?_, ?_, ?_⟩
        · rcases ginchrono.gin_determineLogLevel_cases
            (time.Since c.clock (next c).clock) config with e | e | e
          · exact Or.inr (Or.inr e)
          · exact Or.inr (Or.inl e)
          · exact Or.inl e
        · intro hu
          rw [h, Spec.ginLine, if_neg hu, ← String.append_assoc]
        · intro hu
          rw [h, Spec.ginLine, if_pos hu, String.append_empty]

/-- C4 on a request of 600ms with a user agent (fasthttp) and on one of 2100ms with two
recorded errors (gin): the emitted text, written out. -/
theorem c4_log_line_format_witness :
    ("\x1b[33m[WARN]\x1b[0m t600001000 | 404 |   600000000ns |        10.0.0.7 | GET     /slow | curl/8.5"
      ∈ emitted (fasthttpchrono.New Sample.host Sample.fhConfig
          (Sample.fhNext (600 * time.Millisecond) 404) { ctx := Sample.fhCtx, clock := 1000 }).2 ∧
     "\x1b[33m[WARN]\x1b[0m t600001000 | 404 |   600000000ns |        10.0.0.7 | GET     /slow | curl/8.5"
      = Spec.logLine "WARN" "t600001000" 404 "600000000ns" "10.0.0.7" "GET" "/slow" ++ " | " ++
          "curl/8.5") ∧
    ("\x1b[31m[ERROR]\x1b[0m t2100001000 | 500 |  2100000000ns |        10.0.0.7 | GET     /slow | boom;bang"
      ∈ emitted (ginchrono.New Sample.host Sample.ginConfig
          (Sample.ginNext (2100 * time.Millisecond) 500 ["boom", "bang"])
          { ctx := Sample.ginCtx, clock := 1000 }).2 ∧
     "\x1b[31m[ERROR]\x1b[0m t2100001000 | 500 |  2100000000ns |        10.0.0.7 | GET     /slow | boom;bang"
      = Spec.logLine "ERROR" "t2100001000" 500 "2100000000ns" "10.0.0.7" "GET" "/slow" ++ " | " ++
          "boom;bang") :=
  ⟨⟨by decide,
    (((c4_log_line_format Sample.host).1 Sample.fhConfig
      (Sample.fhNext (600 * time.Millisecond) 404) { ctx := Sample.fhCtx, clock := 1000 }
      _ (by decide)).2.1 (by decide)).trans (by decide)⟩,
   ⟨by decide,
    (((c4_log_line_format Sample.host).2.1 Sample.ginConfig
      (Sample.ginNext (2100 * time.Millisecond) 500 ["boom", "bang"])
      { ctx := Sample.ginCtx, clock := 1000 } _ (by decide)).2.1 (by decide)).trans
      (by decide)⟩⟩

/-- C6: for every downstream handler and every request that is logged, the status code
written into the line is the status code of the response as it stands after the downstream
handler has returned, `(next w).ctx`, not the one of the context the handler was given. -/
theorem c6_status_read_after_handler (host : Host) :
    (∀ (config : fasthttpchrono.Config) (next : fasthttpchrono.RequestHandler)
        (w : World fasthttpchrono.RequestCtx) (line : String),
        line ∈ emitted (fasthttpchrono.New host config next w).2 →
        line = Spec.fasthttpLine
          (fasthttpchrono.determineLogLevel (time.Since w.clock (next w).clock) config)
          (host.timeFormat "2006/01/02 - 15:04:05" (next w).clock)
          (next w).ctx.StatusCode
          (host.durationString (time.Since w.clock (next w).clock)) (next w).ctx.RemoteIP
          (next w).ctx.Method (next w).ctx.Path (next w).ctx.UserAgent) ∧
    (∀ (config : ginchrono.Config) (next : ginchrono.HandlerFunc)
        (c : World ginchrono.Context) (line : String),
        line ∈ emitted (ginchrono.New host config next c).2 →
        line = Spec.ginLine
          (ginchrono.determineLogLevel (time.Since c.clock (next c).clock) config)
          (host.timeFormat "2006/01/02 - 15:04:05" (next c).clock)
          (next c).ctx.Status
          (host.durationString (time.Since c.clock (next c).clock)) (next c).ctx.ClientIP
          (next c).ctx.Method (next c).ctx.Path (next c).ctx.Errors
          (host.errorsString (next c).ctx.Errors)) := by
  constructor
  · intro config next w line h
    rw [fasthttpchrono.fh_emitted_New] at h
    split at h
    · exact absurd h (List.not_mem_nil _)
    · split at h
      · exact absurd h (List.not_mem_nil _)
      · exact List.mem_singleton.1 h
  · intro config next c line h
    rw [ginchrono.gin_emitted_New] at h
    split at h
    · exact absurd h (List.not_mem_nil _)
    · split at h
      · exact absurd h (List.not_mem_nil _)
      · exact List.mem_singleton.1 h

/-- C6 on a context whose status is 200 when the handler is invoked and 404 when it
returns: the line carries 404, in both variants. -/
theorem c6_status_read_after_handler_witness :
    (Sample.fhCtx.StatusCode = 200 ∧
     "\x1b[33m[WARN]\x1b[0m t600001000 | 404 |   600000000ns |        10.0.0.7 | GET     /slow | curl/8.5"
      = Spec.fasthttpLine "WARN" "t600001000" 404 "600000000ns" "10.0.0.7" "GET" "/slow"
          "curl/8.5") ∧
    (Sample.ginCtx.Status = 200 ∧
     "\x1b[33m[WARN]\x1b[0m t600001000 | 404 |   600000000ns |        10.0.0.7 | GET     /slow"
      = Spec.ginLine "WARN" "t600001000" 404 "600000000ns" "10.0.0.7" "GET" "/slow" [] "") :=
  ⟨⟨rfl,
    ((c6_status_read_after_handler Sample.host).1 Sample.fhConfig
      (Sample.fhNext (600 * time.Millisecond) 404) { ctx := Sample.fhCtx, clock := 1000 }
      _ (by decide)).trans (by decide)⟩,
   ⟨rfl,
    ((c6_status_read_after_handler Sample.host).2 Sample.ginConfig
      (Sample.ginNext (600 * time.Millisecond) 404 []) { ctx := Sample.ginCtx, clock := 1000 }
      _ (by decide)).trans (by decide)⟩⟩

/-! ## The sink -/

/-- C7: a request that is neither skipped nor suppressed is emitted through exactly one
sink call, after the call of the downstream handler, and a missing logger is no failure:
if Config.Logger is set, that function is called once with the line as its format argument
and no further arguments, and the process-wide logger is not called; if Config.Logger is
nil, the process-wide logger is called once with the line. -/
theorem c7_one_sink_call (host : Host) :
    (∀ (config : fasthttpchrono.Config) (next : fasthttpchrono.RequestHandler)
        (w : World fasthttpchrono.RequestCtx),
        config.Enabled = true → w.ctx.Path ∉ config.SkipPaths →
        (config.LogAllRequests = true ∨
          fasthttpchrono.determineLogLevel (time.Since w.clock (next w).clock) config ≠ "INFO") →
        (∀ f, config.Logger = some f →
          (fasthttpchrono.New host config next w).2 =
            [Call.next, Call.logger f
              (Spec.fasthttpLine
                (fasthttpchrono.determineLogLevel (time.Since w.clock (next w).clock) config)
                (host.timeFormat "2006/01/02 - 15:04:05" (next w).clock) (next w).ctx.StatusCode
                (host.durationString (time.Since w.clock (next w).clock)) (next w).ctx.RemoteIP
                (next w).ctx.Method (next w).ctx.Path (next w).ctx.UserAgent) []]) ∧
        (config.Logger = none →
          (fasthttpchrono.New host config next w).2 =
            [Call.next, Call.logPrint
              (Spec.fasthttpLine
                (fasthttpchrono.determineLogLevel (time.Since w.clock (next w).clock) config)
                (host.timeFormat "2006/01/02 - 15:04:05" (next w).clock) (next w).ctx.StatusCode
                (host.durationString (time.Since w.clock (next w).clock)) (next w).ctx.RemoteIP
                (next w).ctx.Method (next w).ctx.Path (next w).ctx.UserAgent)])) ∧
    (∀ (config : ginchrono.Config) (next : ginchrono.HandlerFunc)
        (c : World ginchrono.Context),
        config.Enabled = true →
        (config.LogAllRequests = true ∨
          ginchrono.determineLogLevel (time.Since c.clock (next c).clock) config ≠ "INFO") →
        (∀ f, config.Logger = some f →
          (ginchrono.New host config next c).2 =
            [Call.next, Call.logger f
              (Spec.ginLine
                (ginchrono.determineLogLevel (time.Since c.clock (next c).clock) config)
                (host.timeFormat "2006/01/02 - 15:04:05" (next c).clock) (next c).ctx.Status
                (host.durationString (time.Since c.clock (next c).clock)) (next c).ctx.ClientIP
                (next c).ctx.Method (next c).ctx.Path (next c).ctx.Errors
                (host.errorsString (next c).ctx.Errors)) []]) ∧
        (config.Logger = none →
          (ginchrono.New host config next c).2 =
            [Call.next, Call.logPrint
              (Spec.ginLine
                (ginchrono.determineLogLevel (time.Since c.clock (next c).clock) config)
                (host.timeFormat "2006/01/02 - 15:04:05" (next c).clock) (next c).ctx.Status
                (host.durationString (time.Since c.clock (next c).clock)) (next c).ctx.ClientIP
                (next c).ctx.Method (next c).ctx.Path (next c).ctx.Errors
                (host.errorsString (next c).ctx.Errors))])) := by
  constructor
  · intro config next w hen hpath hlog
    have h1 : ¬ (config.Enabled = false ∨ w.ctx.Path ∈ config.SkipPaths) := by
      rintro (h | h)
      · rw [hen] at h
        exact Bool.noConfusion h
      · exact hpath h
    have h2 : ¬ (config.LogAllRequests = false ∧
        fasthttpchrono.determineLogLevel (time.Since w.clock (next w).clock) config =
          fasthttpchrono.INFO) := by
      rintro ⟨ha, hb⟩
      rcases hlog with h | h
      · rw [ha] at h
        exact Bool.noConfusion h
      · exact h hb
    rw [fasthttpchrono.fh_New_run, if_neg h1, if_neg h2]
    constructor
    · intro f hf
      rw [hf]
    · intro hf
      rw [hf]
  · intro config next c hen hlog
    have h1 : ¬ (config.Enabled = false) := by
      intro h
      rw [hen] at h
      exact Bool.noConfusion h
    have h2 : ¬ (config.LogAllRequests = false ∧
        ginchrono.determineLogLevel (time.Since c.clock (next c).clock) config =
          ginchrono.INFO) := by
      rintro ⟨ha, hb⟩
      rcases hlog with h | h
      · rw [ha] at h
        exact Bool.noConfusion h
      · exact h hb
    rw [ginchrono.gin_New_run, if_neg h1, if_neg h2]
    constructor
    · intro f hf
      rw [hf]
    · intro hf
      rw [hf]

/-- C7 on the example configuration, whose logger is a function of the caller, and on the
same configuration with the logger left nil. -/
theorem c7_one_sink_call_witness :
    (fasthttpchrono.New Sample.host Sample.fhConfig
        (Sample.fhNext (600 * time.Millisecond) 404) { ctx := Sample.fhCtx, clock := 1000 }).2 =
      [Call.next, Call.logger (LoggerFn.user 1)
        (Spec.fasthttpLine "WARN" "t600001000" 404 "600000000ns" "10.0.0.7" "GET" "/slow"
          "curl/8.5") []] ∧
    (ginchrono.New Sample.host { Sample.ginConfig with Logger := none }
        (Sample.ginNext (600 * time.Millisecond) 404 []) { ctx := Sample.ginCtx, clock := 1000 }).2 =
      [Call.next, Call.logPrint
        (Spec.ginLine "WARN" "t600001000" 404 "600000000ns" "10.0.0.7" "GET" "/slow" [] "")] :=
  ⟨(((c7_one_sink_call Sample.host).1 Sample.fhConfig
      (Sample.fhNext (600 * time.Millisecond) 404) { ctx := Sample.fhCtx, clock := 1000 }
      rfl (by decide) (Or.inl rfl)).1 (LoggerFn.user 1) rfl).trans (by rfl),
   (((c7_one_sink_call Sample.host).2 { Sample.ginConfig with Logger := none }
      (Sample.ginNext (600 * time.Millisecond) 404 []) { ctx := Sample.ginCtx, clock := 1000 }
      rfl (Or.inl rfl)).2 rfl).trans (by rfl)⟩

/-! ## Enable and Disable -/

/-- C8: after `c.Disable()` followed by `c.Enable()`, `c.Enabled` is true and every other
field of `c` has the value it had before (after `Disable()` alone `c.Enabled` is false); a
middleware built with New from that `c` treats every request as one built from the
original `c` with Enabled=true does. -/
theorem c8_disable_then_enable (host : Host) :
    (∀ c : fasthttpchrono.Config,
      (fasthttpchrono.Disable c).Enabled = false ∧
      (fasthttpchrono.Enable (fasthttpchrono.Disable c)).Enabled = true ∧
      (fasthttpchrono.Enable (fasthttpchrono.Disable c)).WarningThreshold = c.WarningThreshold ∧
      (fasthttpchrono.Enable (fasthttpchrono.Disable c)).ErrorThreshold = c.ErrorThreshold ∧
      (fasthttpchrono.Enable (fasthttpchrono.Disable c)).LogAllRequests = c.LogAllRequests ∧
      (fasthttpchrono.Enable (fasthttpchrono.Disable c)).Logger = c.Logger ∧
      (fasthttpchrono.Enable (fasthttpchrono.Disable c)).SkipPaths = c.SkipPaths ∧
      ∀ next w, fasthttpchrono.New host (fasthttpchrono.Enable (fasthttpchrono.Disable c)) next w
        = fasthttpchrono.New host { c with Enabled := true } next w) ∧
    (∀ c : ginchrono.Config,
      (ginchrono.Disable c).Enabled = false ∧
      (ginchrono.Enable (ginchrono.Disable c)).Enabled = true ∧
      (ginchrono.Enable (ginchrono.Disable c)).WarningThreshold = c.WarningThreshold ∧
      (ginchrono.Enable (ginchrono.Disable c)).ErrorThreshold = c.ErrorThreshold ∧
      (ginchrono.Enable (ginchrono.Disable c)).LogAllRequests = c.LogAllRequests ∧
      (ginchrono.Enable (ginchrono.Disable c)).Logger = c.Logger ∧
      ∀ next w, ginchrono.New host (ginchrono.Enable (ginchrono.Disable c)) next w
        = ginchrono.New host { c with Enabled := true } next w) := by
  constructor
  · intro c
    exact ⟨rfl, rfl, rfl, rfl, rfl, rfl, rfl, fun _ _ => rfl⟩
  · intro c
    exact ⟨rfl, rfl, rfl, rfl, rfl, rfl, fun _ _ => rfl⟩

/-- C8 on the sequence of `ginchrono/example/main.go`, `Disable()` then `Enable()`: a slow
request is logged again, in both variants. -/
theorem c8_disable_then_enable_witness :
    emitted (fasthttpchrono.New Sample.host
      (fasthttpchrono.Enable (fasthttpchrono.Disable Sample.fhConfig))
      (Sample.fhNext (600 * time.Millisecond) 200) { ctx := Sample.fhCtx, clock := 1000 }).2
      = ["\x1b[33m[WARN]\x1b[0m t600001000 | 200 |   600000000ns |        10.0.0.7 | GET     /slow | curl/8.5"] ∧
    emitted (ginchrono.New Sample.host (ginchrono.Enable (ginchrono.Disable Sample.ginConfig))
      (Sample.ginNext (600 * time.Millisecond) 200 []) { ctx := Sample.ginCtx, clock := 1000 }).2
      = ["\x1b[33m[WARN]\x1b[0m t600001000 | 200 |   600000000ns |        10.0.0.7 | GET     /slow"] :=
  ⟨(congrArg (fun r => emitted r.2)
      (((c8_disable_then_enable Sample.host).1 Sample.fhConfig).2.2.2.2.2.2.2
        (Sample.fhNext (600 * time.Millisecond) 200) { ctx := Sample.fhCtx, clock := 1000 })).trans
      (by decide),
   (congrArg (fun r => emitted r.2)
      (((c8_disable_then_enable Sample.host).2 Sample.ginConfig).2.2.2.2.2.2
        (Sample.ginNext (600 * time.Millisecond) 200 []) { ctx := Sample.ginCtx, clock := 1000 })).trans
      (by decide)⟩

/-! ## The captured copy -/

theorem memory.read_congr (h k : memory.Heap) (s : memory.Slice)
    (e : ∀ i, i < s.len → k.cells s.array i = h.cells s.array i) : k.read s = h.read s := by
  unfold memory.Heap.read
  apply List.map_congr_left
  intro i hi
  exact e i (List.mem_range.1 hi)

/-- The slice `append` returns reads as the old elements followed by the new one. -/
theorem memory.read_append (grow : Nat → Nat) (h : memory.Heap) (s : memory.Slice)
    (x : String) :
    (memory.append grow h s x).1.read (memory.append grow h s x).2 = h.read s ++ [x] := by
  unfold memory.append
  split
  · simp only [memory.Heap.read, List.range_succ, List.map_append, List.map_cons, List.map_nil,
      true_and, if_true]
    congr 1
    apply List.map_congr_left
    intro i hi
    have hne : i ≠ s.len := Nat.ne_of_lt (List.mem_range.1 hi)
    simp [hne]
  · simp only [memory.Heap.read, List.range_succ, List.map_append, List.map_cons, List.map_nil,
      if_true, Nat.lt_irrefl, if_false]
    congr 1
    apply List.map_congr_left
    intro i hi
    simp [List.mem_range.1 hi]

/-- A method call on the variable is, read through the heap, the method on the value. -/
theorem fasthttpchrono.fh_run_onValue (grow : Nat → Nat) (op : fasthttpchrono.Op)
    (p : fasthttpchrono.Program) :
    (op.run grow p).caller.load (op.run grow p).heap = op.onValue (p.caller.load p.heap) := by
  cases op with
  | Enable => rfl
  | Disable => rfl
  | AddSkipPath path =>
      simp only [fasthttpchrono.Op.run, fasthttpchrono.Op.onValue, fasthttpchrono.AddSkipPath,
        fasthttpchrono.ConfigVar.load, memory.read_append]

theorem fasthttpchrono.fh_keeps_step (grow : Nat → Nat) (h : memory.Heap)
    (v : fasthttpchrono.ConfigVar) (op : fasthttpchrono.Op) (p : fasthttpchrono.Program)
    (k : p.Keeps h v) : (op.run grow p).Keeps h v := by
  obtain ⟨k1, k2, k3, k4⟩ := k
  cases op with
  | Enable => exact ⟨k1, k2, k3, k4⟩
  | Disable => exact ⟨k1, k2, k3, k4⟩
  | AddSkipPath path =>
      unfold fasthttpchrono.Op.run memory.append
      by_cases hc : p.caller.SkipPaths.len < p.caller.SkipPaths.cap
      · simp only [if_pos hc]
        refine ⟨k1, ?_, k3, ?_⟩
        · intro i hi
          have hn : ¬ (v.SkipPaths.array = p.caller.SkipPaths.array ∧
              i = p.caller.SkipPaths.len) := by
            rintro ⟨ha, hl⟩
            have := k4 ha.symm
            omega
          simp only [if_neg hn]
          exact k2 i hi
        · intro ha
          have := k4 ha
          show v.SkipPaths.len ≤ p.caller.SkipPaths.len + 1
          omega
      · simp only [if_neg hc]
        refine ⟨k1, ?_, ?_, ?_⟩
        · intro i hi
          have hn : ¬ (v.SkipPaths.array = p.heap.next) := Nat.ne_of_lt k3
          simp only [if_neg hn]
          exact k2 i hi
        · show v.SkipPaths.array < p.heap.next + 1
          omega
        · intro ha
          have hb : p.heap.next = v.SkipPaths.array := ha
          omega

theorem fasthttpchrono.fh_keeps_run (grow : Nat → Nat) (h : memory.Heap)
    (v : fasthttpchrono.ConfigVar) (ops : List fasthttpchrono.Op) :
    ∀ p : fasthttpchrono.Program, p.Keeps h v →
      (fasthttpchrono.Program.run grow ops p).Keeps h v := by
  induction ops with
  | nil => exact fun p k => k
  | cons op ops ih => exact fun p k => ih _ (fasthttpchrono.fh_keeps_step grow h v op p k)

theorem ginchrono.gin_run_captured (ops : List ginchrono.Op) :
    ∀ p : ginchrono.Program, (ginchrono.Program.run ops p).captured = p.captured := by
  induction ops with
  | nil => exact fun p => rfl
  | cons op ops ih =>
      intro p
      rw [ginchrono.Program.run, ih]
      cases op <;> rfl

/-- C9: the handler `New(config)` returned depends only on the Config value at the moment
of the call: whatever sequence of `Enable()`, `Disable()` and `AddSkipPath()` is called on
the variable of the caller afterwards, also when `append` writes into the backing array
the captured copy shares, the handler treats every request as before, in whether it logs
and in what it logs. -/
theorem c9_handler_keeps_config_of_New (host : Host) :
    (∀ (grow : Nat → Nat) (h : memory.Heap) (v : fasthttpchrono.ConfigVar)
        (ops : List fasthttpchrono.Op) (next : fasthttpchrono.RequestHandler)
        (w : World fasthttpchrono.RequestCtx),
        v.SkipPaths.array < h.next →
        fasthttpchrono.Program.handler host
            (fasthttpchrono.Program.run grow ops (fasthttpchrono.Program.afterNew h v)) next w
          = fasthttpchrono.Program.handler host (fasthttpchrono.Program.afterNew h v) next w) ∧
    (∀ (v : ginchrono.Config) (ops : List ginchrono.Op) (next : ginchrono.HandlerFunc)
        (c : World ginchrono.Context),
        ginchrono.Program.handler host
            (ginchrono.Program.run ops (ginchrono.Program.afterNew v)) next c
          = ginchrono.Program.handler host (ginchrono.Program.afterNew v) next c) := by
  constructor
  · intro grow h v ops next w hv
    have k0 : (fasthttpchrono.Program.afterNew h v).Keeps h v :=
      ⟨rfl, fun _ _ => rfl, hv, fun _ => Nat.le_refl _⟩
    obtain ⟨k1, k2, _, _⟩ := fasthttpchrono.fh_keeps_run grow h v ops _ k0
    unfold fasthttpchrono.Program.handler
    rw [k1]
    have e : v.load (fasthttpchrono.Program.run grow ops
        (fasthttpchrono.Program.afterNew h v)).heap = v.load h := by
      unfold fasthttpchrono.ConfigVar.load
      rw [memory.read_congr h _ v.SkipPaths k2]
    rw [e]
    rfl
  · intro v ops next c
    unfold ginchrono.Program.handler
    rw [ginchrono.gin_run_captured]

/-- C9 on a handler built while SkipPaths is ["/health"] with spare capacity: the caller
then adds "/slow" (written in place into the shared array), disables the variable and adds
a third path; the variable reads disabled with three paths, and the handler still logs the
request to "/slow". In the gin variant the caller disables the variable. -/
theorem c9_handler_keeps_config_of_New_witness :
    ((fasthttpchrono.Program.run (fun n => 2 * n)
        [.AddSkipPath "/slow", .Disable, .AddSkipPath "/metrics"]
        (fasthttpchrono.Program.afterNew Sample.heap Sample.fhConfigVar)).caller.load
      (fasthttpchrono.Program.run (fun n => 2 * n)
        [.AddSkipPath "/slow", .Disable, .AddSkipPath "/metrics"]
        (fasthttpchrono.Program.afterNew Sample.heap Sample.fhConfigVar)).heap).SkipPaths
      = ["/health", "/slow", "/metrics"] ∧
    emitted (fasthttpchrono.Program.handler Sample.host
      (fasthttpchrono.Program.run (fun n => 2 * n)
        [.AddSkipPath "/slow", .Disable, .AddSkipPath "/metrics"]
        (fasthttpchrono.Program.afterNew Sample.heap Sample.fhConfigVar))
      (Sample.fhNext (600 * time.Millisecond) 200) { ctx := Sample.fhCtx, clock := 1000 }).2
      = ["\x1b[33m[WARN]\x1b[0m t600001000 | 200 |   600000000ns |        10.0.0.7 | GET     /slow | curl/8.5"] ∧
    emitted (ginchrono.Program.handler Sample.host
      (ginchrono.Program.run [.Disable] (ginchrono.Program.afterNew Sample.ginConfig))
      (Sample.ginNext (600 * time.Millisecond) 200 []) { ctx := Sample.ginCtx, clock := 1000 }).2
      = ["\x1b[33m[WARN]\x1b[0m t600001000 | 200 |   600000000ns |        10.0.0.7 | GET     /slow"] :=
  ⟨by decide,
   (congrArg (fun r => emitted r.2)
      ((c9_handler_keeps_config_of_New Sample.host).1 (fun n => 2 * n) Sample.heap
        Sample.fhConfigVar [.AddSkipPath "/slow", .Disable, .AddSkipPath "/metrics"]
        (Sample.fhNext (600 * time.Millisecond) 200) { ctx := Sample.fhCtx, clock := 1000 }
        (by decide))).trans (by decide),
   (congrArg (fun r => emitted r.2)
      ((c9_handler_keeps_config_of_New Sample.host).2 Sample.ginConfig [.Disable]
        (Sample.ginNext (600 * time.Millisecond) 200 []) { ctx := Sample.ginCtx, clock := 1000 })).trans
      (by decide)⟩

end Chrono
